import Mathlib

/-
Verification of the ColliderML download core
(src/colliderml/core/io/downloader.py, class DataDownloader).

The Python code is shallowly embedded as pure Lean functions.  Network and
filesystem effects are made explicit:

* the HTTP GET of one URL is an oracle `net : Request → GetOutcome`;
* the HTTP HEAD of one URL is an oracle `head : String → HeadOutcome`;
* reading an HDF5 container from bytes is an oracle
  `parse : List Nat → Except String H5File` (h5py.File plus the group walk);
* the incremental sha256 object is an abstract state machine `Sha256Model`;
* file contents are byte lists (`List Nat`), a local file is
  `Option (List Nat)` (`none` means the file does not exist on disk);
* `mkdirOk` tells whether creating the parent directories of a local path
  succeeds; in the source this is the one statement of
  `_download_single_file` that is outside every try block, so its failure
  propagates out of the call.

Functions keep the snake_case names of the source where possible.
-/

namespace ColliderML

/-! ## URL building (downloader.py lines 144 and 311) -/

/-- Model of the Python str.rstrip applied with the slash character:
drop every trailing slash. -/
def rstripSlash (s : String) : String :=
  String.mk ((s.toList.reverse.dropWhile (fun c => c = '/')).reverse)

/-- Model of the Python str.lstrip applied with the slash character:
drop every leading slash. -/
def lstripSlash (s : String) : String :=
  String.mk (s.toList.dropWhile (fun c => c = '/'))

/-- URL built for one mirror, downloader.py line 144 and line 311:
base_url.rstrip of slash, then a slash, then remote_path.lstrip of slash. -/
def buildUrl (baseUrl remotePath : String) : String :=
  rstripSlash baseUrl ++ "/" ++ lstripSlash remotePath

/-! ## Static configuration (colliderml/core/data/config.py is not under
src/; these two definitions are modelled from the spec) -/

/-- Modelled from the spec: `EVENTS_PER_FILE = 1000`, the nominal number of
events per chunk file (config.py, absent from src/). -/
def EVENTS_PER_FILE : Nat := 1000

/-- Modelled from the spec: the remote path convention
pileup/process/v1/dataType/object/pileup.process.v1.dataType.object.eventsS-E.h5
(function get_object_path of config.py, absent from src/).  The lookup of the
data type from OBJECT_CONFIGS is modelled by passing dataType explicitly;
rejection of invalid process and object names happens in the collaborator
and is not modelled. -/
def get_object_path (pileup process objectName dataType : String)
    (startEvent endEvent : Nat) : String :=
  pileup ++ "/" ++ process ++ "/v1/" ++ dataType ++ "/" ++ objectName ++ "/" ++
    pileup ++ "." ++ process ++ ".v1." ++ dataType ++ "." ++ objectName ++
    ".events" ++ toString startEvent ++ "-" ++ toString endEvent ++ ".h5"

/-! ## HDF5 structural model and _validate_hdf5 (lines 69-120) -/

/-- A node of an HDF5 container: either a group of named children or a
dataset carrying a shape and a dtype string. -/
inductive H5Node where
  | group (children : List (String × H5Node))
  | dset (shape : List Nat) (dtype : String)

/-- An HDF5 file: file-level attributes plus the named top-level nodes.
Iteration order of h5py (alphabetical by name) is modelled by list order. -/
structure H5File where
  attrs : List (String × String)
  root : List (String × H5Node)

/-- The metadata dictionary built by _validate_hdf5 (lines 98-110).  The
source spreads the file attributes into the same dictionary; they are kept
as a separate field here. -/
structure StructuralMetadata where
  n_events : Nat
  datasets : List (String × (List Nat × String))
  attrs : List (String × String)
deriving DecidableEq

/-- Message of the AttributeError raised when the events node is an HDF5
dataset and the source calls keys() on it (line 89); the exact Python text
is irrelevant to every claim. -/
def datasetHasNoKeysMsg : String := "object has no attribute keys"

/-- Model of DataDownloader._validate_hdf5 (lines 69-120).  The ValueErrors
raised inside the try block are not OSError or KeyError, so they are caught
by the generic handler of line 119 and re-wrapped with the prefix
"Error validating HDF5 file: "; an unreadable container (OSError out of
h5py.File, line 117) is wrapped as "Invalid HDF5 file: ". -/
def validate_hdf5 (parse : List Nat → Except String H5File)
    (bytes : List Nat) : Except String StructuralMetadata :=
  match parse bytes with
  | .error e => .error ("Invalid HDF5 file: " ++ e)
  | .ok f =>
    match List.lookup "events" f.root with
    | none => .error ("Error validating HDF5 file: " ++ "Missing required 'events' group")
    | some eventsNode =>
      match eventsNode with
      | .dset _ _ => .error ("Error validating HDF5 file: " ++ datasetHasNoKeysMsg)
      | .group children =>
        match children with
        | [] => .error ("Error validating HDF5 file: " ++ "No events found in file")
        | (_, firstEvent) :: _ =>
          match firstEvent with
          | .dset _ _ => .error ("Error validating HDF5 file: " ++ "Events must be HDF5 groups")
          | .group fields =>
            let ds := fields.filterMap (fun p =>
              match p.2 with
              | .dset shape dtype => some (p.1, (shape, dtype))
              | .group _ => none)
            if ds.isEmpty then
              .error ("Error validating HDF5 file: " ++ "No datasets found in events")
            else
              .ok { n_events := children.length, datasets := ds, attrs := f.attrs }

/-! ## _compute_checksum (lines 54-67) -/

/-- Splitting of a byte list into reads of chunkSize bytes, as done by
iter over f.read(chunk_size) until the empty read (line 65).  A read of
zero bytes returns the empty chunk at once, so no chunk is produced.  The
fuel argument is bs.length, enough for every step since each read with a
positive size consumes at least one byte. -/
def chunkListAux (chunkSize : Nat) : Nat → List Nat → List (List Nat)
  | 0, _ => []
  | _, [] => []
  | fuel + 1, bs => bs.take chunkSize :: chunkListAux chunkSize fuel (bs.drop chunkSize)

/-- Chunked reading of a whole byte list. -/
def chunkList (chunkSize : Nat) (bs : List Nat) : List (List Nat) :=
  if chunkSize = 0 then [] else chunkListAux chunkSize bs.length bs

/-- Abstract model of the incremental hashlib.sha256 object: an initial
state, an update step per chunk, and a hexdigest rendering. -/
structure Sha256Model (σ : Type) where
  initState : σ
  updateState : σ → List Nat → σ
  finalHex : σ → String

/-- Model of DataDownloader._compute_checksum (lines 54-67): fold the
update over the chunked reads and render the hexdigest. -/
def compute_checksum {σ : Type} (sha : Sha256Model σ) (chunkSize : Nat)
    (bytes : List Nat) : String :=
  sha.finalHex ((chunkList chunkSize bytes).foldl sha.updateState sha.initState)

/-! ## _download_single_file (lines 122-198) -/

/-- One HTTP request of the transfer loop.  The source always issues a plain
GET (line 147); rangeStart is in the model so that the absence of a byte
range request is expressible, and would be some n for a resumed request of
the bytes from offset n. -/
structure Request where
  url : String
  rangeStart : Option Nat
deriving DecidableEq

/-- Outcome of one streamed GET.  advertisedSize is the total size the
server advertises for the resource (content-length); the source never reads
it.  failure covers a connection error or an HTTP error status raised by
raise_for_status; stream delivers the chunk sequence of iter_content;
streamBroken delivers some chunks and then raises mid-stream (a dropped
connection), which the source catches at line 189 like any other error. -/
inductive GetOutcome where
  | failure (err : String)
  | stream (advertisedSize : Nat) (chunks : List (List Nat))
  | streamBroken (advertisedSize : Nat) (chunks : List (List Nat)) (err : String)
deriving DecidableEq

/-- The request issued for one mirror: the URL of line 144 with no byte
range, since the source sends a plain GET. -/
def reqOf (remotePath baseUrl : String) : Request :=
  { url := buildUrl baseUrl remotePath, rangeStart := none }

/-- The DownloadResult dataclass (lines 25-33). -/
structure DownloadResult where
  success : Bool
  path : String
  error : Option String
  checksum : Option String
  size : Option Nat
  metadata : Option StructuralMetadata
deriving DecidableEq

/-- Environment of one DataDownloader instance plus the effect oracles. -/
structure Env (σ : Type) where
  baseUrls : List String
  chunkSize : Nat
  net : Request → GetOutcome
  parse : List Nat → Except String H5File
  sha : Sha256Model σ
  mkdirOk : String → Bool

/-- Python str applied to an optional last error: str(None) is the text
None (line 197 formats last_error when no URL got as far as a stream). -/
def strOfOptErr : Option String → String
  | none => "None"
  | some e => e

/-- Bytes written to the local file from the delivered chunks: the file is
opened in truncating write mode (line 156) and only non-empty chunks are
written (line 158). -/
def joinedContent (chunks : List (List Nat)) : List Nat :=
  (chunks.filter (fun c => !c.isEmpty)).flatten

/-- The mirror loop of _download_single_file (lines 141-198).  State threaded
through the loop: the remaining mirrors, the last error seen, the content of
the local file (none when absent), and the log of requests issued so far.
Returns the DownloadResult, the final local file state, and the request log.
On a stream the file is truncated and rewritten; validation failure deletes
the file (line 182) before the failure result is returned; a mid-stream
error leaves the partial bytes on disk and moves to the next mirror. -/
def downloadLoop {σ : Type} (env : Env σ) (remotePath localPath : String) :
    List String → Option String → Option (List Nat) → List Request →
    DownloadResult × Option (List Nat) × List Request
  | [], lastError, file, log =>
    ({ success := false, path := localPath,
       error := some ("Failed to download from any URL: " ++ strOfOptErr lastError),
       checksum := none, size := none, metadata := none }, file, log)
  | baseUrl :: rest, lastError, file, log =>
    let req : Request := reqOf remotePath baseUrl
    match env.net req with
    | .failure e =>
      downloadLoop env remotePath localPath rest (some e) file (log ++ [req])
    | .streamBroken _ delivered e =>
      downloadLoop env remotePath localPath rest (some e)
        (some (joinedContent delivered)) (log ++ [req])
    | .stream _ chunks =>
      let content := joinedContent chunks
      match validate_hdf5 env.parse content with
      | .ok md =>
        ({ success := true, path := localPath, error := none,
           checksum := some (compute_checksum env.sha env.chunkSize content),
           size := some content.length, metadata := some md },
         some content, log ++ [req])
      | .error msg =>
        ({ success := false, path := localPath, error := some msg,
           checksum := none, size := none, metadata := none },
         none, log ++ [req])

/-- Model of DataDownloader._download_single_file (lines 122-198).  The
resume parameter is accepted exactly as in the source signature (line 126);
initialFile is the content of the local path before the call.  The mkdir of
line 139 is the only statement outside every try block, so its failure is an
exception escaping the call, modelled as Except.error. -/
def download_single_file {σ : Type} (env : Env σ) (remotePath localPath : String)
    (resume : Bool) (initialFile : Option (List Nat)) :
    Except String (DownloadResult × Option (List Nat) × List Request) :=
  if env.mkdirOk localPath then
    .ok (downloadLoop env remotePath localPath env.baseUrls none initialFile [])
  else
    .error "mkdir failed"

/-! ## _check_file_exists (lines 300-318) -/

/-- Outcome of one HEAD request: either a response with a status code or an
exception (connection error and the like, swallowed by the bare except of
line 316). -/
inductive HeadOutcome where
  | status (code : Nat)
  | exn (err : String)
deriving DecidableEq

/-- Model of DataDownloader._check_file_exists (lines 300-318): HEAD each
mirror in list order, return (true, url) on the first status 200, else move
to the next mirror; (false, none) when every mirror is exhausted. -/
def check_file_exists (head : String → HeadOutcome) (baseUrls : List String)
    (remotePath : String) : Bool × Option String :=
  match baseUrls with
  | [] => (false, none)
  | baseUrl :: rest =>
    let url := buildUrl baseUrl remotePath
    match head url with
    | .status code =>
      if code == 200 then (true, some url) else check_file_exists head rest remotePath
    | .exn _ => check_file_exists head rest remotePath

/-- Boolean used by find_last_available_event: the first component of
_check_file_exists (line 357 and line 378). -/
def probeExists (head : String → HeadOutcome) (baseUrls : List String)
    (remotePath : String) : Bool :=
  (check_file_exists head baseUrls remotePath).1

/-! ## find_last_available_event (lines 320-382) -/

/-- The while loop of lines 348-363: probe the chunk whose nominal range is
currentChunk to currentChunk + EVENTS_PER_FILE - 1; when present record
currentChunk and advance by EVENTS_PER_FILE, otherwise stop.  lastFound
models the last_found variable, with none for the -1 sentinel.  The fuel
argument only bounds the iteration count; the top-level entry passes
maxEvents + 2, which is enough because the cursor grows by EVENTS_PER_FILE
per iteration and the loop stops once the cursor exceeds maxEvents. -/
def forwardScanAux (head : String → HeadOutcome) (baseUrls : List String)
    (pileup process objectName dataType : String) (maxEvents : Nat) :
    Nat → Nat → Option Nat → Option Nat
  | 0, _, lastFound => lastFound
  | fuel + 1, currentChunk, lastFound =>
    if currentChunk ≤ maxEvents then
      if probeExists head baseUrls (get_object_path pileup process objectName dataType
          currentChunk (currentChunk + EVENTS_PER_FILE - 1)) then
        forwardScanAux head baseUrls pileup process objectName dataType maxEvents
          fuel (currentChunk + EVENTS_PER_FILE) (some currentChunk)
      else
        lastFound
    else
      lastFound

/-- The for loop of lines 370-380: probe candidate end events from
lastChunkStart + k downward; k starts at EVENTS_PER_FILE - 1.  When the
loop falls through, line 382 returns lastChunkStart + EVENTS_PER_FILE - 1. -/
def tailScanAux (head : String → HeadOutcome) (baseUrls : List String)
    (pileup process objectName dataType : String) (lastChunkStart : Nat) :
    Nat → Nat
  | 0 =>
    if probeExists head baseUrls (get_object_path pileup process objectName dataType
        lastChunkStart lastChunkStart) then
      lastChunkStart
    else
      lastChunkStart + EVENTS_PER_FILE - 1
  | k + 1 =>
    if probeExists head baseUrls (get_object_path pileup process objectName dataType
        lastChunkStart (lastChunkStart + (k + 1))) then
      lastChunkStart + (k + 1)
    else
      tailScanAux head baseUrls pileup process objectName dataType lastChunkStart k

/-- Model of DataDownloader.find_last_available_event (lines 320-382).
Phase one scans chunks forward; when no chunk was ever present the source
raises ValueError (line 366), modelled as Except.error with the message of
the f-string.  Phase two scans end-event candidates downward inside the
last confirmed chunk. -/
def find_last_available_event (head : String → HeadOutcome) (baseUrls : List String)
    (pileup process objectName dataType : String)
    (startEvent maxEvents : Nat) : Except String Nat :=
  match forwardScanAux head baseUrls pileup process objectName dataType maxEvents
      (maxEvents + 2) startEvent none with
  | none =>
    .error ("No files found for " ++ process ++ " " ++ objectName ++
      " with pileup " ++ pileup)
  | some lastChunkStart =>
    .ok (tailScanAux head baseUrls pileup process objectName dataType lastChunkStart
      (EVENTS_PER_FILE - 1))

/-! ## download_object and download_dataset (lines 200-298) -/

/-- Model of os.path.basename: the part of the path after the last slash. -/
def basename (p : String) : String :=
  String.mk ((p.toList.reverse.takeWhile (fun c => c ≠ '/')).reverse)

/-- Update of one key of a Python dict modelled as an association list:
an existing key keeps its position and gets the new value, a new key is
appended. -/
def dictInsert (m : List (String × DownloadResult)) (k : String)
    (v : DownloadResult) : List (String × DownloadResult) :=
  if m.any (fun p => p.1 == k) then
    m.map (fun p => if p.1 == k then (k, v) else p)
  else
    m ++ [(k, v)]

/-- Model of dict.update with the result dictionary of one task
(line 296). -/
def dictUpdate (m : List (String × DownloadResult))
    (kvs : List (String × DownloadResult)) : List (String × DownloadResult) :=
  kvs.foldl (fun acc p => dictInsert acc p.1 p.2) m

/-- Model of DataDownloader.download_object (lines 200-250): build the
remote path, download the single chunk into localDir under the base name of
the remote path, and return the one-entry mapping.  fsInit gives the
pre-existing content of each local path.  An exception escaping
_download_single_file escapes download_object as well (there is no
try block in the source). -/
def download_object {σ : Type} (env : Env σ) (pileup process objectName dataType : String)
    (localDir : String) (startEvent endEvent : Nat) (resume : Bool)
    (fsInit : String → Option (List Nat)) :
    Except String (List (String × DownloadResult)) :=
  let remotePath := get_object_path pileup process objectName dataType startEvent endEvent
  let localPath := localDir ++ "/" ++ basename remotePath
  match download_single_file env remotePath localPath resume (fsInit localPath) with
  | .error e => .error e
  | .ok r => .ok [(remotePath, r.1)]

/-- The inner for loop of download_dataset (lines 285-296), over the object
types of one process, threading the accumulated results dictionary.  An
exception escaping download_object aborts the whole loop, as in the
source. -/
def datasetLoopObjects {σ : Type} (env : Env σ) (pileup process : String)
    (dataTypeOf : String → String) (localDir : String) (startEvent endEvent : Nat)
    (resume : Bool) (fsInit : String → Option (List Nat)) :
    List String → List (String × DownloadResult) →
    Except String (List (String × DownloadResult))
  | [], acc => .ok acc
  | objectType :: rest, acc =>
    match download_object env pileup process objectType (dataTypeOf objectType)
        localDir startEvent endEvent resume fsInit with
    | .error e => .error e
    | .ok kvs =>
      datasetLoopObjects env pileup process dataTypeOf localDir
        startEvent endEvent resume fsInit rest (dictUpdate acc kvs)

/-- The outer for loop of download_dataset (lines 284-296), over the
processes. -/
def datasetLoopProcesses {σ : Type} (env : Env σ) (pileup : String)
    (objectTypes : List String) (dataTypeOf : String → String) (localDir : String)
    (startEvent endEvent : Nat) (resume : Bool) (fsInit : String → Option (List Nat)) :
    List String → List (String × DownloadResult) →
    Except String (List (String × DownloadResult))
  | [], acc => .ok acc
  | process :: rest, acc =>
    match datasetLoopObjects env pileup process dataTypeOf localDir
        startEvent endEvent resume fsInit objectTypes acc with
    | .error e => .error e
    | .ok acc2 =>
      datasetLoopProcesses env pileup objectTypes dataTypeOf localDir
        startEvent endEvent resume fsInit rest acc2

/-- Model of DataDownloader.download_dataset (lines 252-298): iterate the
processes and object types, download each chunk, and merge the per-task
one-entry mappings into the results dictionary. -/
def download_dataset {σ : Type} (env : Env σ) (pileup : String)
    (processes objectTypes : List String) (dataTypeOf : String → String)
    (localDir : String) (startEvent endEvent : Nat) (resume : Bool)
    (fsInit : String → Option (List Nat)) :
    Except String (List (String × DownloadResult)) :=
  datasetLoopProcesses env pileup objectTypes dataTypeOf localDir
    startEvent endEvent resume fsInit processes []

/-- The remote paths generated by download_dataset, in generation order:
outer loop over processes, inner loop over object types. -/
def pathsOf (pileup : String) (processes objectTypes : List String)
    (dataTypeOf : String → String) (startEvent endEvent : Nat) : List String :=
  processes.flatMap (fun process =>
    objectTypes.map (fun objectType =>
      get_object_path pileup process objectType (dataTypeOf objectType)
        startEvent endEvent))

/-! ## Accessors and observations used by the theorems -/

/-- DownloadResult component of a single-file fetch that did not raise;
none when the call raised. -/
def resultOf (x : Except String (DownloadResult × Option (List Nat) × List Request)) :
    Option DownloadResult :=
  match x with
  | .ok r => some r.1
  | .error _ => none

/-- Final local file state of a single-file fetch that did not raise. -/
def fileOf (x : Except String (DownloadResult × Option (List Nat) × List Request)) :
    Option (List Nat) :=
  match x with
  | .ok r => r.2.1
  | .error _ => none

/-- Request log of a single-file fetch; empty when the call raised. -/
def requestsOf (x : Except String (DownloadResult × Option (List Nat) × List Request)) :
    List Request :=
  match x with
  | .ok r => r.2.2
  | .error _ => []

/-- Truth of one HEAD outcome as used by _check_file_exists: a response
with status code 200. -/
def isHeadSuccess (o : HeadOutcome) : Bool :=
  match o with
  | .status code => code == 200
  | .exn _ => false

/-- Truth of one GET outcome that does not yield a usable byte stream. -/
def isNonStream (o : GetOutcome) : Bool :=
  match o with
  | .stream _ _ => false
  | .failure _ => true
  | .streamBroken _ _ _ => true

/-- Error recorded into last_error by one GET outcome (line 190); a clean
stream records nothing. -/
def errOfOutcome : GetOutcome → Option String
  | .failure e => some e
  | .streamBroken _ _ e => some e
  | .stream _ _ => none

/-- Value of the last_error variable after the whole mirror list has been
walked without an early return: each non-stream outcome overwrites the
previous error. -/
def lastErrAfter (net : Request → GetOutcome) (remotePath : String)
    (urls : List String) (le : Option String) : Option String :=
  urls.foldl (fun acc u =>
    match errOfOutcome (net (reqOf remotePath u)) with
    | some e => some e
    | none => acc) le

/-- A GET outcome with the advertised size blanked out.  The downloader
never reads the advertised size, so replacing it must not change any
behaviour. -/
def stripAdv : GetOutcome → GetOutcome
  | .failure e => .failure e
  | .stream _ chunks => .stream 0 chunks
  | .streamBroken _ chunks e => .streamBroken 0 chunks e

/-! ## C8: the existence probe returns the first mirror reporting 200 -/

/-- C8: for every HEAD oracle, mirror list and remote path,
_check_file_exists probes the mirrors in list order and returns (true, url)
for the first mirror whose HEAD reports status 200, and (false, none) when
every mirror fails or reports absence. -/
theorem c8_check_file_exists_first_success (head : String → HeadOutcome)
    (baseUrls : List String) (remotePath : String) :
    check_file_exists head baseUrls remotePath =
      match (baseUrls.map (fun b => buildUrl b remotePath)).find?
          (fun url => isHeadSuccess (head url)) with
      | some url => (true, some url)
      | none => (false, none) := by
  induction baseUrls with
  | nil => rfl
  | cons b rest ih =>
    cases h : head (buildUrl b remotePath) with
    | status code =>
      cases hb : code == 200
      · simp only [check_file_exists, List.map_cons, List.find?_cons, h, isHeadSuccess, hb]
        exact ih
      · simp only [check_file_exists, List.map_cons, List.find?_cons, h, isHeadSuccess, hb]
        rfl
    | exn e =>
      simp only [check_file_exists, List.map_cons, List.find?_cons, h, isHeadSuccess]
      exact ih

/-! ## C9: digest and structural validation are functions of the bytes -/

/-- Checksum of the file at a path of a disk, exactly _compute_checksum:
the bytes are read from the disk state and hashed in chunked reads. -/
def compute_checksum_at {σ : Type} (sha : Sha256Model σ) (chunkSize : Nat)
    (disk : String → List Nat) (p : String) : String :=
  compute_checksum sha chunkSize (disk p)

/-- Structural validation of the file at a path of a disk, exactly
_validate_hdf5 applied to the bytes read from the disk state. -/
def validate_hdf5_at (parse : List Nat → Except String H5File)
    (disk : String → List Nat) (p : String) : Except String StructuralMetadata :=
  validate_hdf5 parse (disk p)

/-- C9: hashing two files holding the same bytes (possibly at different
paths, or at different times with the disk unchanged) yields the identical
digest, and structural validation of the same bytes yields identical
results, so identical StructuralMetadata for an already-valid file: both
operations read nothing but the bytes of the file. -/
theorem c9_digest_and_validation_deterministic {σ : Type} (sha : Sha256Model σ)
    (chunkSize : Nat) (parse : List Nat → Except String H5File)
    (disk1 disk2 : String → List Nat) (p1 p2 : String)
    (h : disk1 p1 = disk2 p2) :
    compute_checksum_at sha chunkSize disk1 p1 = compute_checksum_at sha chunkSize disk2 p2 ∧
    validate_hdf5_at parse disk1 p1 = validate_hdf5_at parse disk2 p2 := by
  unfold compute_checksum_at validate_hdf5_at
  rw [h]
  exact ⟨rfl, rfl⟩

/-- Disk in which every path holds the same three bytes. -/
def diskW : String → List Nat := fun _ => [1, 2, 3]

/-- Concrete hash model whose state is the byte list read so far. -/
def shaListModel : Sha256Model (List Nat) :=
  { initState := [], updateState := fun s c => s ++ c, finalHex := fun s => toString s }

/-- Concrete parse oracle returning one well-formed container. -/
def parseW : List Nat → Except String H5File := fun _ =>
  .ok { attrs := [("test_attr", "test_value")],
        root := [("events", .group [("event_000000", .group [("hits", .dset [3] "int64")])])] }

/-- Witness for C9 at two distinct paths of the same disk. -/
theorem c9_witness :
    diskW "a.h5" = diskW "b.h5" ∧
    (compute_checksum_at shaListModel 8192 diskW "a.h5" =
        compute_checksum_at shaListModel 8192 diskW "b.h5" ∧
      validate_hdf5_at parseW diskW "a.h5" = validate_hdf5_at parseW diskW "b.h5") :=
  ⟨rfl, c9_digest_and_validation_deterministic shaListModel 8192 parseW diskW diskW "a.h5" "b.h5" rfl⟩

/-! ## C7: on full mirror exhaustion the last error is surfaced and each
mirror is attempted exactly once, in list order -/

/-- Failure-shaped DownloadResult: success false, the given error message,
and no checksum, size or metadata, as built at lines 183-187 and 194-198. -/
def failedResult (localPath msg : String) : DownloadResult :=
  { success := false, path := localPath, error := some msg,
    checksum := none, size := none, metadata := none }

/-- Behaviour of the mirror loop when no mirror yields a usable stream:
the failure result carries the last error observed, and the log grows by
exactly one request per mirror, in list order. -/
theorem downloadLoop_all_nonstream {σ : Type} (env : Env σ) (remotePath localPath : String)
    (urls : List String) :
    ∀ (lastError : Option String) (file : Option (List Nat)) (log : List Request),
      (∀ u ∈ urls, isNonStream (env.net (reqOf remotePath u)) = true) →
      (downloadLoop env remotePath localPath urls lastError file log).1 =
        failedResult localPath ("Failed to download from any URL: " ++
          strOfOptErr (lastErrAfter env.net remotePath urls lastError)) ∧
      (downloadLoop env remotePath localPath urls lastError file log).2.2 =
        log ++ urls.map (reqOf remotePath) := by
  induction urls with
  | nil =>
    intro lastError file log _
    simp [downloadLoop, lastErrAfter, failedResult]
  | cons u rest ih =>
    intro lastError file log h
    have hu : isNonStream (env.net (reqOf remotePath u)) = true := h u (by simp)
    have hrest : ∀ v ∈ rest, isNonStream (env.net (reqOf remotePath v)) = true :=
      fun v hv => h v (by simp [hv])
    cases hnet : env.net (reqOf remotePath u) with
    | failure e =>
      have step := ih (some e) file (log ++ [reqOf remotePath u]) hrest
      simp only [downloadLoop, hnet]
      refine ⟨step.1.trans ?_, step.2.trans ?_⟩
      · simp [lastErrAfter, hnet, errOfOutcome]
      · simp
    | streamBroken adv delivered e =>
      have step := ih (some e) (some (joinedContent delivered))
        (log ++ [reqOf remotePath u]) hrest
      simp only [downloadLoop, hnet]
      refine ⟨step.1.trans ?_, step.2.trans ?_⟩
      · simp [lastErrAfter, hnet, errOfOutcome]
      · simp
    | stream adv chunks =>
      rw [hnet] at hu
      simp [isNonStream] at hu

/-- C7: when every mirror in the ordered list fails, the failure result of
the single-file fetch surfaces the error of the final mirror attempted (the
last error observed, not the first), and the request log shows every mirror
attempted exactly once, in list order, with no retry. -/
theorem c7_mirror_exhaustion_surfaces_last_error {σ : Type} (env : Env σ)
    (remotePath localPath : String) (resume : Bool) (initialFile : Option (List Nat))
    (frontUrls : List String) (lastUrl : String) (lastErr : String)
    (hurls : env.baseUrls = frontUrls ++ [lastUrl])
    (hmk : env.mkdirOk localPath = true)
    (hfail : ∀ u ∈ env.baseUrls, isNonStream (env.net (reqOf remotePath u)) = true)
    (hlast : errOfOutcome (env.net (reqOf remotePath lastUrl)) = some lastErr) :
    resultOf (download_single_file env remotePath localPath resume initialFile) =
      some (failedResult localPath ("Failed to download from any URL: " ++ lastErr)) ∧
    requestsOf (download_single_file env remotePath localPath resume initialFile) =
      env.baseUrls.map (reqOf remotePath) := by
  have hloop := downloadLoop_all_nonstream env remotePath localPath env.baseUrls
    none initialFile [] hfail
  have hle : lastErrAfter env.net remotePath env.baseUrls none = some lastErr := by
    rw [hurls]
    unfold lastErrAfter
    rw [List.foldl_append]
    simp [hlast]
  unfold download_single_file
  rw [if_pos hmk]
  refine ⟨?_, ?_⟩
  · show some (downloadLoop env remotePath localPath env.baseUrls none initialFile []).1 =
      some (failedResult localPath ("Failed to download from any URL: " ++ lastErr))
    rw [hloop.1, hle]
    rfl
  · show (downloadLoop env remotePath localPath env.baseUrls none initialFile []).2.2 =
      env.baseUrls.map (reqOf remotePath)
    rw [hloop.2]
    simp

/-- Degenerate hash model used by concrete environments in which the digest
value itself is irrelevant. -/
def shaTrivial : Sha256Model Unit :=
  { initState := (), updateState := fun _ _ => (), finalHex := fun _ => "digest" }

/-- Mirror pair for the C7 witness: the first mirror refuses the
connection, the second reports a real 404. -/
def netC7 : Request → GetOutcome := fun r =>
  if r.url == "https://mirror-a/d/f.h5" then .failure "Connection refused"
  else .failure "404 Client Error: Not Found"

/-- Environment for the C7 witness. -/
def envC7 : Env Unit :=
  { baseUrls := ["https://mirror-a", "https://mirror-b"], chunkSize := 8192,
    net := netC7, parse := fun _ => .error "unreadable", sha := shaTrivial,
    mkdirOk := fun _ => true }

/-- Witness for C7: both mirrors fail, the surfaced message carries the 404
of the second (last) mirror, not the connection refusal of the first, and
the log holds one request per mirror in list order. -/
theorem c7_witness :
    resultOf (download_single_file envC7 "d/f.h5" "/data/f.h5" true none) =
      some (failedResult "/data/f.h5"
        ("Failed to download from any URL: " ++ "404 Client Error: Not Found")) ∧
    requestsOf (download_single_file envC7 "d/f.h5" "/data/f.h5" true none) =
      envC7.baseUrls.map (reqOf "d/f.h5") :=
  c7_mirror_exhaustion_surfaces_last_error envC7 "d/f.h5" "/data/f.h5" true none
    ["https://mirror-a"] "https://mirror-b" "404 Client Error: Not Found"
    rfl rfl (by decide) (by decide)

/-! ## C2 and C10: behaviour at the first mirror that yields a stream -/

/-- Success-shaped DownloadResult as built at lines 172-178: checksum of
the content, its byte size and the structural metadata. -/
def successResult {σ : Type} (env : Env σ) (localPath : String)
    (content : List Nat) (md : StructuralMetadata) : DownloadResult :=
  { success := true, path := localPath, error := none,
    checksum := some (compute_checksum env.sha env.chunkSize content),
    size := some content.length, metadata := some md }

/-- Result and final file state produced once a mirror has delivered a
complete stream: validation decides between the success result (file kept)
and the failure result (file deleted). -/
def streamOutcome {σ : Type} (env : Env σ) (localPath : String)
    (chunks : List (List Nat)) : DownloadResult × Option (List Nat) :=
  match validate_hdf5 env.parse (joinedContent chunks) with
  | .ok md =>
    (successResult env localPath (joinedContent chunks) md, some (joinedContent chunks))
  | .error msg => (failedResult localPath msg, none)

/-- Behaviour of the mirror loop when the mirrors before b yield no stream
and b delivers a complete stream: the loop returns at b with the stream
outcome, and the log records exactly the mirrors up to and including b, so
the mirrors after b are never attempted. -/
theorem downloadLoop_first_stream {σ : Type} (env : Env σ) (remotePath localPath : String)
    (front : List String) (b : String) (post : List String) (adv : Nat)
    (chunks : List (List Nat))
    (hfront : ∀ u ∈ front, isNonStream (env.net (reqOf remotePath u)) = true)
    (hb : env.net (reqOf remotePath b) = .stream adv chunks) :
    ∀ (lastError : Option String) (file : Option (List Nat)) (log : List Request),
      downloadLoop env remotePath localPath (front ++ b :: post) lastError file log =
        ((streamOutcome env localPath chunks).1, (streamOutcome env localPath chunks).2,
          log ++ (front ++ [b]).map (reqOf remotePath)) := by
  induction front with
  | nil =>
    intro lastError file log
    simp only [List.nil_append, downloadLoop, hb]
    cases hv : validate_hdf5 env.parse (joinedContent chunks) with
    | ok md =>
      simp [streamOutcome, successResult, hv]
    | error msg =>
      simp [streamOutcome, failedResult, hv]
  | cons u rest ih =>
    intro lastError file log
    have hu : isNonStream (env.net (reqOf remotePath u)) = true := hfront u (by simp)
    have hrest : ∀ v ∈ rest, isNonStream (env.net (reqOf remotePath v)) = true :=
      fun v hv => hfront v (by simp [hv])
    cases hnet : env.net (reqOf remotePath u) with
    | failure e =>
      have step := ih hrest (some e) file (log ++ [reqOf remotePath u])
      simp only [List.cons_append, downloadLoop, hnet, List.append_eq]
      rw [step]
      simp
    | streamBroken adv2 delivered e =>
      have step := ih hrest (some e) (some (joinedContent delivered))
        (log ++ [reqOf remotePath u])
      simp only [List.cons_append, downloadLoop, hnet, List.append_eq]
      rw [step]
      simp
    | stream adv2 chunks2 =>
      rw [hnet] at hu
      simp [isNonStream] at hu

/-- C2: whenever some mirror delivers a complete byte stream whose content
fails structural validation (for any of the structural reasons, including
an unreadable container), the single-file fetch returns a failure result
carrying the structural error message, and the local file no longer exists
afterwards. -/
theorem c2_structural_invalid_fails_and_deletes {σ : Type} (env : Env σ)
    (remotePath localPath : String) (resume : Bool) (initialFile : Option (List Nat))
    (front : List String) (b : String) (post : List String) (adv : Nat)
    (chunks : List (List Nat)) (msg : String)
    (hurls : env.baseUrls = front ++ b :: post)
    (hmk : env.mkdirOk localPath = true)
    (hfront : ∀ u ∈ front, isNonStream (env.net (reqOf remotePath u)) = true)
    (hb : env.net (reqOf remotePath b) = .stream adv chunks)
    (hv : validate_hdf5 env.parse (joinedContent chunks) = .error msg) :
    resultOf (download_single_file env remotePath localPath resume initialFile) =
      some (failedResult localPath msg) ∧
    fileOf (download_single_file env remotePath localPath resume initialFile) = none := by
  unfold download_single_file
  rw [if_pos hmk, hurls]
  have hloop := downloadLoop_first_stream env remotePath localPath front b post adv
    chunks hfront hb none initialFile []
  constructor
  · show some (downloadLoop env remotePath localPath (front ++ b :: post) none initialFile []).1 =
      some (failedResult localPath msg)
    rw [hloop]
    simp [streamOutcome, hv]
  · show (downloadLoop env remotePath localPath (front ++ b :: post) none initialFile []).2.1 =
      none
    rw [hloop]
    simp [streamOutcome, hv]

/-- Parse oracle that reads every byte content as a container with no
top-level events collection. -/
def parseNoEvents : List Nat → Except String H5File := fun _ =>
  .ok { attrs := [], root := [] }

/-- Environment for the C2 witness: one mirror streams three bytes whose
container lacks the events collection. -/
def envC2 : Env Unit :=
  { baseUrls := ["https://mirror-a"], chunkSize := 8192,
    net := fun _ => .stream 3 [[1, 2, 3]], parse := parseNoEvents,
    sha := shaTrivial, mkdirOk := fun _ => true }

/-- Witness for C2: the fetch fails with the missing-events structural
message and the just-written local file is gone. -/
theorem c2_witness :
    resultOf (download_single_file envC2 "d/f.h5" "/data/f.h5" true none) =
      some (failedResult "/data/f.h5"
        ("Error validating HDF5 file: " ++ "Missing required 'events' group")) ∧
    fileOf (download_single_file envC2 "d/f.h5" "/data/f.h5" true none) = none :=
  c2_structural_invalid_fails_and_deletes envC2 "d/f.h5" "/data/f.h5" true none
    [] "https://mirror-a" [] 3 [[1, 2, 3]]
    ("Error validating HDF5 file: " ++ "Missing required 'events' group")
    rfl rfl (by simp) rfl rfl

/-- C10: when an earlier mirror delivers a complete stream whose content
fails structural validation, the single-file fetch returns that structural
failure at once: the request log stops at that mirror and the mirrors after
it are never attempted, even though a later mirror might serve a valid
copy (the mirrors after b are arbitrary here). -/
theorem c10_structural_invalid_short_circuits_mirrors {σ : Type} (env : Env σ)
    (remotePath localPath : String) (resume : Bool) (initialFile : Option (List Nat))
    (front : List String) (b : String) (post : List String) (adv : Nat)
    (chunks : List (List Nat)) (msg : String)
    (hurls : env.baseUrls = front ++ b :: post)
    (hmk : env.mkdirOk localPath = true)
    (hfront : ∀ u ∈ front, isNonStream (env.net (reqOf remotePath u)) = true)
    (hb : env.net (reqOf remotePath b) = .stream adv chunks)
    (hv : validate_hdf5 env.parse (joinedContent chunks) = .error msg) :
    requestsOf (download_single_file env remotePath localPath resume initialFile) =
      (front ++ [b]).map (reqOf remotePath) ∧
    resultOf (download_single_file env remotePath localPath resume initialFile) =
      some (failedResult localPath msg) := by
  unfold download_single_file
  rw [if_pos hmk, hurls]
  have hloop := downloadLoop_first_stream env remotePath localPath front b post adv
    chunks hfront hb none initialFile []
  constructor
  · show (downloadLoop env remotePath localPath (front ++ b :: post) none initialFile []).2.2 =
      (front ++ [b]).map (reqOf remotePath)
    rw [hloop]
    rfl
  · show some (downloadLoop env remotePath localPath (front ++ b :: post) none initialFile []).1 =
      some (failedResult localPath msg)
    rw [hloop]
    simp [streamOutcome, hv]

/-- Parse oracle for the C10 witness: the single byte 1 reads as a
container without the events collection, anything else as a well-formed
container. -/
def parseC10 : List Nat → Except String H5File := fun bs =>
  if bs == [1] then .ok { attrs := [], root := [] }
  else
    .ok { attrs := [],
          root := [("events", .group [("event_000000", .group [("hits", .dset [1] "int64")])])] }

/-- Network for the C10 witness: the first mirror streams the invalid byte,
the second mirror streams a byte that would validate. -/
def netC10 : Request → GetOutcome := fun r =>
  if r.url == "https://mirror-a/d/f.h5" then .stream 1 [[1]] else .stream 1 [[2]]

/-- Environment for the C10 witness. -/
def envC10 : Env Unit :=
  { baseUrls := ["https://mirror-a", "https://mirror-b"], chunkSize := 8192,
    net := netC10, parse := parseC10, sha := shaTrivial, mkdirOk := fun _ => true }

/-- Witness for C10: only the first mirror is attempted although the second
would serve a structurally valid copy, and the structural failure is
returned. -/
theorem c10_witness :
    requestsOf (download_single_file envC10 "d/f.h5" "/data/f.h5" true none) =
      [reqOf "d/f.h5" "https://mirror-a"] ∧
    resultOf (download_single_file envC10 "d/f.h5" "/data/f.h5" true none) =
      some (failedResult "/data/f.h5"
        ("Error validating HDF5 file: " ++ "Missing required 'events' group")) :=
  c10_structural_invalid_short_circuits_mirrors envC10 "d/f.h5" "/data/f.h5" true none
    [] "https://mirror-a" ["https://mirror-b"] 1 [[1]]
    ("Error validating HDF5 file: " ++ "Missing required 'events' group")
    rfl rfl (by simp) (by decide) (by rfl)

/-! ## C3: the advertised size is never compared with the bytes on disk -/

/-- Blanking the advertised sizes in the network oracle changes nothing in
the mirror loop. -/
theorem downloadLoop_stripAdv {σ : Type} (env : Env σ) (remotePath localPath : String)
    (urls : List String) :
    ∀ (lastError : Option String) (file : Option (List Nat)) (log : List Request),
      downloadLoop { env with net := fun r => stripAdv (env.net r) }
          remotePath localPath urls lastError file log =
        downloadLoop env remotePath localPath urls lastError file log := by
  induction urls with
  | nil =>
    intro lastError file log
    rfl
  | cons u rest ih =>
    intro lastError file log
    cases hnet : env.net (reqOf remotePath u) with
    | failure e =>
      simp only [downloadLoop, hnet, stripAdv]
      exact ih _ _ _
    | streamBroken adv delivered e =>
      simp only [downloadLoop, hnet, stripAdv]
      exact ih _ _ _
    | stream adv chunks =>
      simp only [downloadLoop, hnet, stripAdv]

/-- C3 amended: the single-file fetch never reads the server-advertised
total size: replacing every advertised size in the network oracle by zero
yields the identical result, file state and request log.  In particular a
transfer whose on-disk byte count disagrees with the advertised size is
never reported as a size mismatch: there is no size comparison and no
SizeMismatch failure kind in the code; the only failure shapes are the
structural-validation failure and the all-mirrors-failed failure. -/
theorem c3_amended_advertised_size_ignored {σ : Type} (env : Env σ)
    (remotePath localPath : String) (resume : Bool) (initialFile : Option (List Nat)) :
    download_single_file { env with net := fun r => stripAdv (env.net r) }
        remotePath localPath resume initialFile =
      download_single_file env remotePath localPath resume initialFile := by
  unfold download_single_file
  cases hmk : env.mkdirOk localPath with
  | false => rfl
  | true =>
    show Except.ok (downloadLoop { env with net := fun r => stripAdv (env.net r) }
        remotePath localPath env.baseUrls none initialFile []) =
      Except.ok (downloadLoop env remotePath localPath env.baseUrls none initialFile [])
    rw [downloadLoop_stripAdv]

/-- A well-formed container used by concrete environments. -/
def h5Valid : H5File :=
  { attrs := [],
    root := [("events", .group [("event_000000", .group [("hits", .dset [400] "uint8")])])] }

/-- Four hundred bytes of content. -/
def bytes400 : List Nat := List.replicate 400 7

/-- Environment for the C3 counterexample: the single mirror advertises a
total size of 1000 bytes but the stream ends cleanly after delivering only
400 bytes, and the container parses as well-formed. -/
def envC3 : Env Unit :=
  { baseUrls := ["https://mirror-a"], chunkSize := 8192,
    net := fun _ => .stream 1000 [bytes400], parse := fun _ => .ok h5Valid,
    sha := shaTrivial, mkdirOk := fun _ => true }

set_option maxRecDepth 8192 in
/-- C3 counterexample: the mirror advertises 1000 bytes, 400 bytes reach
the disk, and the fetch result is success with size 400 — not a size
mismatch failure.  The claim requires a SizeMismatch failure here. -/
theorem c3_counterexample :
    envC3.net (reqOf "d/f.h5" "https://mirror-a") = .stream 1000 [bytes400] ∧
    (download_single_file envC3 "d/f.h5" "/data/f.h5" true none).map
        (fun r => (r.1.success, r.1.size)) = .ok (true, some 400) := by
  exact ⟨rfl, rfl⟩

/-! ## C4: the resume flag and any pre-existing partial file are ignored -/

/-- The DownloadResult and the request log of the mirror loop do not depend
on the content the local file had when the loop started. -/
theorem downloadLoop_file_independent {σ : Type} (env : Env σ)
    (remotePath localPath : String) (urls : List String) :
    ∀ (lastError : Option String) (file1 file2 : Option (List Nat)) (log : List Request),
      ((downloadLoop env remotePath localPath urls lastError file1 log).1,
        (downloadLoop env remotePath localPath urls lastError file1 log).2.2) =
      ((downloadLoop env remotePath localPath urls lastError file2 log).1,
        (downloadLoop env remotePath localPath urls lastError file2 log).2.2) := by
  induction urls with
  | nil =>
    intro lastError file1 file2 log
    rfl
  | cons u rest ih =>
    intro lastError file1 file2 log
    cases hnet : env.net (reqOf remotePath u) with
    | failure e =>
      simp only [downloadLoop, hnet]
      exact ih _ _ _ _
    | streamBroken adv delivered e =>
      simp only [downloadLoop, hnet]
    | stream adv chunks =>
      simp only [downloadLoop, hnet]

/-- Every request the mirror loop appends to the log asks for the full
resource: no byte range is ever set. -/
theorem downloadLoop_requests_full {σ : Type} (env : Env σ)
    (remotePath localPath : String) (urls : List String) :
    ∀ (lastError : Option String) (file : Option (List Nat)) (log : List Request),
      ((downloadLoop env remotePath localPath urls lastError file log).2.2).all
          (fun q => q.rangeStart == none) =
        log.all (fun q => q.rangeStart == none) := by
  induction urls with
  | nil =>
    intro lastError file log
    rfl
  | cons u rest ih =>
    intro lastError file log
    cases hnet : env.net (reqOf remotePath u) with
    | failure e =>
      simp only [downloadLoop, hnet]
      rw [ih]
      simp [reqOf]
    | streamBroken adv delivered e =>
      simp only [downloadLoop, hnet]
      rw [ih]
      simp [reqOf]
    | stream adv chunks =>
      simp only [downloadLoop, hnet]
      cases hv : validate_hdf5 env.parse (joinedContent chunks) with
      | ok md => simp [hv, reqOf]
      | error msg => simp [hv, reqOf]

/-- C4 amended: the resume parameter is accepted but ignored.  Whatever the
resume flag and whatever partial file already exists at the local path, the
fetch issues the same requests and returns the same DownloadResult as a
fresh non-resumed call: every request asks for the full resource with no
byte range, and the file is rewritten from scratch rather than appended
to. -/
theorem c4_amended_resume_ignored {σ : Type} (env : Env σ)
    (remotePath localPath : String) (resume : Bool) (initialFile : Option (List Nat)) :
    (download_single_file env remotePath localPath resume initialFile).map
        (fun r => (r.1, r.2.2)) =
      (download_single_file env remotePath localPath false none).map
        (fun r => (r.1, r.2.2)) ∧
    (requestsOf (download_single_file env remotePath localPath resume initialFile)).all
        (fun q => q.rangeStart == none) = true := by
  constructor
  · unfold download_single_file
    cases hmk : env.mkdirOk localPath with
    | false => rfl
    | true =>
      simp only [if_true]
      show Except.ok ((downloadLoop env remotePath localPath env.baseUrls none initialFile []).1,
          (downloadLoop env remotePath localPath env.baseUrls none initialFile []).2.2) =
        Except.ok ((downloadLoop env remotePath localPath env.baseUrls none none []).1,
          (downloadLoop env remotePath localPath env.baseUrls none none []).2.2)
      exact congrArg Except.ok
        (downloadLoop_file_independent env remotePath localPath env.baseUrls none initialFile none [])
  · unfold download_single_file
    cases hmk : env.mkdirOk localPath with
    | false => rfl
    | true =>
      simp only [if_true]
      show ((downloadLoop env remotePath localPath env.baseUrls none initialFile []).2.2).all
          (fun q => q.rangeStart == none) = true
      rw [downloadLoop_requests_full]
      rfl

/-- Environment for the C4 counterexample: a single mirror streams the two
bytes 9, 9. -/
def envC4 : Env Unit :=
  { baseUrls := ["https://mirror-a"], chunkSize := 8192,
    net := fun _ => .stream 2 [[9, 9]], parse := fun _ => .ok h5Valid,
    sha := shaTrivial, mkdirOk := fun _ => true }

/-- C4 counterexample: resume is true and a partial file [1, 2, 3] exists
at the local path, yet the one request issued carries no byte range (the
full resource is requested) and the final file is [9, 9], the delivered
bytes alone — not the appended [1, 2, 3, 9, 9] the claim requires. -/
theorem c4_counterexample :
    download_single_file envC4 "d/f.h5" "/data/f.h5" true (some [1, 2, 3]) =
      .ok ({ success := true, path := "/data/f.h5", error := none,
             checksum := some "digest", size := some 2,
             metadata := some { n_events := 1,
                                datasets := [("hits", ([400], "uint8"))],
                                attrs := [] } },
           some [9, 9], [{ url := "https://mirror-a/d/f.h5", rangeStart := none }]) := by
  rfl

/-! ## C6 and C1: extent discovery -/

/-- One unfolding of the forward chunk scan. -/
theorem forwardScanAux_succ (head : String → HeadOutcome) (baseUrls : List String)
    (pileup process objectName dataType : String) (maxEvents fuel currentChunk : Nat)
    (lastFound : Option Nat) :
    forwardScanAux head baseUrls pileup process objectName dataType maxEvents
        (fuel + 1) currentChunk lastFound =
      if currentChunk ≤ maxEvents then
        (if probeExists head baseUrls (get_object_path pileup process objectName dataType
            currentChunk (currentChunk + EVENTS_PER_FILE - 1)) then
          forwardScanAux head baseUrls pileup process objectName dataType maxEvents
            fuel (currentChunk + EVENTS_PER_FILE) (some currentChunk)
        else lastFound)
      else lastFound := rfl

/-- C6: when the existence probe reports absence at every chunk start the
forward scan can visit (startEvent, startEvent + EVENTS_PER_FILE, and so
on), find_last_available_event fails with the no-files-found error instead
of returning an event index. -/
theorem c6_zero_chunks_not_found (head : String → HeadOutcome) (baseUrls : List String)
    (pileup process objectName dataType : String) (startEvent maxEvents : Nat)
    (habsent : ∀ k : Nat, startEvent + EVENTS_PER_FILE * k ≤ maxEvents →
      probeExists head baseUrls (get_object_path pileup process
        objectName dataType (startEvent + EVENTS_PER_FILE * k)
        (startEvent + EVENTS_PER_FILE * k + (EVENTS_PER_FILE - 1))) = false) :
    find_last_available_event head baseUrls pileup process objectName dataType
        startEvent maxEvents =
      .error ("No files found for " ++ process ++ " " ++ objectName ++
        " with pileup " ++ pileup) := by
  unfold find_last_available_event
  rw [show maxEvents + 2 = (maxEvents + 1) + 1 from rfl, forwardScanAux_succ]
  by_cases hle : startEvent ≤ maxEvents
  · have h0 := habsent 0 (by simpa using hle)
    rw [Nat.mul_zero, Nat.add_zero] at h0
    rw [if_pos hle]
    have harg : startEvent + EVENTS_PER_FILE - 1 = startEvent + (EVENTS_PER_FILE - 1) := by
      simp [EVENTS_PER_FILE]
    rw [harg, h0]
    simp
  · rw [if_neg hle]

/-- HEAD oracle of a server that hosts nothing. -/
def headAllAbsent : String → HeadOutcome := fun _ => .status 404

/-- Witness for C6: with an empty server the discovery raises the
no-files-found error. -/
theorem c6_witness :
    find_last_available_event headAllAbsent ["https://opendata.cern.ch"] "pileup-10"
        "ttbar" "tracks" "reco" 0 100000 =
      .error ("No files found for " ++ "ttbar" ++ " " ++ "tracks" ++
        " with pileup " ++ "pileup-10") :=
  c6_zero_chunks_not_found headAllAbsent ["https://opendata.cern.ch"] "pileup-10"
    "ttbar" "tracks" "reco" 0 100000 (fun _ _ => rfl)

/-- One unfolding of the tail boundary scan. -/
theorem tailScanAux_succ (head : String → HeadOutcome) (baseUrls : List String)
    (pileup process objectName dataType : String) (lastChunkStart k : Nat) :
    tailScanAux head baseUrls pileup process objectName dataType lastChunkStart (k + 1) =
      if probeExists head baseUrls (get_object_path pileup process objectName dataType
          lastChunkStart (lastChunkStart + (k + 1))) then
        lastChunkStart + (k + 1)
      else
        tailScanAux head baseUrls pileup process objectName dataType lastChunkStart k := rfl

/-- Whenever the forward scan has confirmed a chunk, the tail scan returns
the nominal end of that chunk: the first candidate it probes is named with
the end boundary lastChunkStart + EVENTS_PER_FILE - 1, which is exactly the
path the forward scan probed when it confirmed the chunk, so with any
existence oracle that is a function of the path the first tail probe
succeeds at once and no smaller end event can ever be returned. -/
theorem tailScan_returns_nominal_end (head : String → HeadOutcome)
    (baseUrls : List String) (pileup process objectName dataType : String)
    (lastChunkStart : Nat)
    (hpresent : probeExists head baseUrls (get_object_path pileup process objectName
        dataType lastChunkStart (lastChunkStart + EVENTS_PER_FILE - 1)) = true) :
    tailScanAux head baseUrls pileup process objectName dataType lastChunkStart
        (EVENTS_PER_FILE - 1) = lastChunkStart + EVENTS_PER_FILE - 1 := by
  have harg : lastChunkStart + EVENTS_PER_FILE - 1 = lastChunkStart + 999 := by
    simp [EVENTS_PER_FILE]
  rw [harg] at hpresent ⊢
  rw [show EVENTS_PER_FILE - 1 = 998 + 1 from rfl, tailScanAux_succ]
  rw [show lastChunkStart + (998 + 1) = lastChunkStart + 999 from rfl]
  rw [if_pos hpresent]

/-- Mirror base URL of the C1 scenario. -/
def baseC1 : String := "https://opendata.cern.ch"

/-- HEAD oracle of the C1 scenario: the server hosts the full chunk file
events0-999 and the short final chunk file events1000-1500 (the chunk at
start 1000 truly ends at event 1500), and nothing else; in particular the
chunk at start 2000 is absent, and within the chunk at start 1000 no
end boundary beyond 1500 probes as present. -/
def headC1 : String → HeadOutcome := fun url =>
  if url == buildUrl baseC1 (get_object_path "pileup-10" "ttbar" "tracks" "reco" 0 999) ||
      url == buildUrl baseC1 (get_object_path "pileup-10" "ttbar" "tracks" "reco" 1000 1500)
  then .status 200 else .status 404

set_option maxRecDepth 8192 in
/-- C1: at the scenario of the claim the code returns 999, not 1500.  The
forward scan probes the chunk at start 1000 only under its nominal name
events1000-1999, which is absent because the chunk truly ends at 1500, so
the scan stops with last confirmed chunk start 0; the tail scan then runs
inside chunk 0 and its first probe, events0-999, is the same path the
forward scan already confirmed, giving 999.  A return value of 1500 is
unreachable (see tailScan_returns_nominal_end). -/
theorem c1_scenario_returns_999_not_1500 :
    find_last_available_event headC1 [baseC1] "pileup-10" "ttbar" "tracks" "reco"
        0 100000 = .ok 999 ∧ (999 : Nat) ≠ 1500 := by
  exact ⟨rfl, by decide⟩

/-! ## C5: shape of the batch mapping -/

/-- Inserting a key that is not yet in the dictionary appends the pair. -/
theorem dictInsert_not_mem (m : List (String × DownloadResult)) (k : String)
    (v : DownloadResult) (hk : k ∉ m.map Prod.fst) :
    dictInsert m k v = m ++ [(k, v)] := by
  unfold dictInsert
  rw [if_neg]
  intro hmem
  rw [List.any_eq_true] at hmem
  obtain ⟨p, hp, hpk⟩ := hmem
  refine hk ?_
  rw [List.mem_map]
  exact ⟨p, hp, by simpa using hpk⟩

/-- With directory creation succeeding everywhere, download_object returns
the one-entry mapping keyed by the generated remote path. -/
theorem download_object_ok {σ : Type} (env : Env σ)
    (pileup process objectName dataType localDir : String)
    (startEvent endEvent : Nat) (resume : Bool) (fsInit : String → Option (List Nat))
    (hmk : ∀ p, env.mkdirOk p = true) :
    ∃ v, download_object env pileup process objectName dataType localDir
        startEvent endEvent resume fsInit =
      .ok [(get_object_path pileup process objectName dataType startEvent endEvent, v)] := by
  simp only [download_object, download_single_file, hmk, if_true]
  exact ⟨_, rfl⟩

/-- Keys accumulated by the inner loop of download_dataset: one new key per
object type, appended in iteration order, provided the new keys are fresh
and mutually distinct. -/
theorem datasetLoopObjects_keys {σ : Type} (env : Env σ) (pileup process : String)
    (dataTypeOf : String → String) (localDir : String) (startEvent endEvent : Nat)
    (resume : Bool) (fsInit : String → Option (List Nat))
    (hmk : ∀ p, env.mkdirOk p = true) :
    ∀ (objectTypes : List String) (acc : List (String × DownloadResult)),
      (acc.map Prod.fst ++ objectTypes.map (fun o => get_object_path pileup process o
        (dataTypeOf o) startEvent endEvent)).Nodup →
      (datasetLoopObjects env pileup process dataTypeOf localDir startEvent endEvent
          resume fsInit objectTypes acc).map (List.map Prod.fst) =
        .ok (acc.map Prod.fst ++ objectTypes.map (fun o => get_object_path pileup process o
          (dataTypeOf o) startEvent endEvent)) := by
  intro objectTypes
  induction objectTypes with
  | nil =>
    intro acc h
    simp [datasetLoopObjects, Except.map]
  | cons o rest ih =>
    intro acc h
    obtain ⟨v, hobj⟩ := download_object_ok env pileup process o (dataTypeOf o) localDir
      startEvent endEvent resume fsInit hmk
    have hfresh : get_object_path pileup process o (dataTypeOf o) startEvent endEvent ∉
        acc.map Prod.fst := by
      intro hin
      rw [List.nodup_append] at h
      exact h.2.2 hin (by simp)
    simp only [datasetLoopObjects, hobj]
    have hupd : dictUpdate acc [(get_object_path pileup process o (dataTypeOf o)
        startEvent endEvent, v)] = acc ++ [(get_object_path pileup process o (dataTypeOf o)
        startEvent endEvent, v)] := by
      show dictInsert acc _ v = _
      exact dictInsert_not_mem acc _ v hfresh
    rw [hupd]
    have hmap : (acc ++ [(get_object_path pileup process o (dataTypeOf o) startEvent
        endEvent, v)]).map Prod.fst = acc.map Prod.fst ++
          [get_object_path pileup process o (dataTypeOf o) startEvent endEvent] := by
      simp
    have hnodup2 : ((acc ++ [(get_object_path pileup process o (dataTypeOf o) startEvent
        endEvent, v)]).map Prod.fst ++ rest.map (fun o => get_object_path pileup process o
          (dataTypeOf o) startEvent endEvent)).Nodup := by
      rw [hmap, List.append_assoc]
      simpa using h
    rw [ih _ hnodup2, hmap]
    simp

/-- Keys accumulated by the outer loop of download_dataset. -/
theorem datasetLoopProcesses_keys {σ : Type} (env : Env σ) (pileup : String)
    (objectTypes : List String) (dataTypeOf : String → String) (localDir : String)
    (startEvent endEvent : Nat) (resume : Bool) (fsInit : String → Option (List Nat))
    (hmk : ∀ p, env.mkdirOk p = true) :
    ∀ (processes : List String) (acc : List (String × DownloadResult)),
      (acc.map Prod.fst ++ processes.flatMap (fun pr => objectTypes.map
        (fun o => get_object_path pileup pr o (dataTypeOf o) startEvent endEvent))).Nodup →
      (datasetLoopProcesses env pileup objectTypes dataTypeOf localDir startEvent endEvent
          resume fsInit processes acc).map (List.map Prod.fst) =
        .ok (acc.map Prod.fst ++ processes.flatMap (fun pr => objectTypes.map
          (fun o => get_object_path pileup pr o (dataTypeOf o) startEvent endEvent))) := by
  intro processes
  induction processes with
  | nil =>
    intro acc h
    simp [datasetLoopProcesses, Except.map]
  | cons pr rest ih =>
    intro acc h
    rw [List.flatMap_cons, ← List.append_assoc] at h
    have hinnerNodup : (acc.map Prod.fst ++ objectTypes.map (fun o => get_object_path
        pileup pr o (dataTypeOf o) startEvent endEvent)).Nodup :=
      h.sublist (List.sublist_append_left _ _)
    have hinner := datasetLoopObjects_keys env pileup pr dataTypeOf localDir startEvent
      endEvent resume fsInit hmk objectTypes acc hinnerNodup
    cases hres : datasetLoopObjects env pileup pr dataTypeOf localDir startEvent endEvent
        resume fsInit objectTypes acc with
    | error e =>
      rw [hres] at hinner
      simp [Except.map] at hinner
    | ok acc2 =>
      rw [hres] at hinner
      have hacc2 : acc2.map Prod.fst = acc.map Prod.fst ++ objectTypes.map
          (fun o => get_object_path pileup pr o (dataTypeOf o) startEvent endEvent) := by
        simpa [Except.map] using hinner
      simp only [datasetLoopProcesses, hres]
      have hnodup2 : (acc2.map Prod.fst ++ rest.flatMap (fun prc => objectTypes.map
          (fun o => get_object_path pileup prc o (dataTypeOf o) startEvent
            endEvent))).Nodup := by
        rw [hacc2]
        exact h
      rw [ih acc2 hnodup2, hacc2]
      rw [List.flatMap_cons, List.append_assoc]

/-- C5 amended: provided directory creation succeeds for every local path,
the batch download returns a mapping whose keys are exactly the generated
remote paths, one entry per path and in generation order, however many of
the individual transfers fail; but when directory creation fails for some
task, the exception escapes the batch call and no mapping at all is
returned (see the counterexample). -/
theorem c5_amended_complete_mapping {σ : Type} (env : Env σ) (pileup : String)
    (processes objectTypes : List String) (dataTypeOf : String → String)
    (localDir : String) (startEvent endEvent : Nat) (resume : Bool)
    (fsInit : String → Option (List Nat))
    (hmk : ∀ p, env.mkdirOk p = true)
    (hnodup : (pathsOf pileup processes objectTypes dataTypeOf startEvent endEvent).Nodup) :
    (download_dataset env pileup processes objectTypes dataTypeOf localDir startEvent
        endEvent resume fsInit).map (List.map Prod.fst) =
      .ok (pathsOf pileup processes objectTypes dataTypeOf startEvent endEvent) := by
  have hloop := datasetLoopProcesses_keys env pileup objectTypes dataTypeOf localDir
    startEvent endEvent resume fsInit hmk processes []
    (by simpa [pathsOf] using hnodup)
  unfold download_dataset pathsOf
  simpa using hloop

/-- Environment for the C5 witness: directories can be created, every
transfer fails with a connection error. -/
def envC5ok : Env Unit :=
  { baseUrls := ["https://mirror-a"], chunkSize := 8192,
    net := fun _ => .failure "Connection refused", parse := parseNoEvents,
    sha := shaTrivial, mkdirOk := fun _ => true }

/-- Witness for C5 amended: two processes and one object type give two
distinct remote paths; although both transfers fail, the returned mapping
has exactly those two keys. -/
theorem c5_witness :
    (download_dataset envC5ok "pileup-10" ["ttbar", "qcd"] ["tracks"] (fun _ => "reco")
        "/data" 0 999 true (fun _ => none)).map (List.map Prod.fst) =
      .ok (pathsOf "pileup-10" ["ttbar", "qcd"] ["tracks"] (fun _ => "reco") 0 999) :=
  c5_amended_complete_mapping envC5ok "pileup-10" ["ttbar", "qcd"] ["tracks"]
    (fun _ => "reco") "/data" 0 999 true (fun _ => none) (fun _ => rfl) (by decide)

/-- Environment for the C5 counterexample: directory creation fails. -/
def envC5bad : Env Unit :=
  { baseUrls := ["https://mirror-a"], chunkSize := 8192,
    net := fun _ => .failure "Connection refused", parse := parseNoEvents,
    sha := shaTrivial, mkdirOk := fun _ => false }

/-- C5 counterexample: two distinct RemotePaths are submitted, yet the
directory-creation failure of the first task escapes the batch call as an
exception: no mapping is returned at all, so the returned mapping does not
contain one entry per input RemotePath, and the task failure was not
captured into that path result. -/
theorem c5_counterexample :
    download_dataset envC5bad "pileup-10" ["ttbar", "qcd"] ["tracks"] (fun _ => "reco")
        "/data" 0 999 true (fun _ => none) = .error "mkdir failed" ∧
    (pathsOf "pileup-10" ["ttbar", "qcd"] ["tracks"] (fun _ => "reco") 0 999).length = 2 := by
  exact ⟨rfl, rfl⟩

end ColliderML
